import Mathlib

/-!
Verification of the feedback-proxy backend (src/backend), a FastAPI CRUD
service over a dual database backend (embedded SQLite via apsw, and
client/server Postgres via asyncpg).  Each definition is a shallow
embedding of a function or code path of the source; the theorems settle
the frozen claims about that source.
-/

deriving instance DecidableEq for Except

namespace FeedbackProxy

/-! ## Configuration (src/backend/config.py) -/

/-- Keys of config.ALLOWED_PROJECTS (config.py lines 17-20). -/
def ALLOWED_PROJECT_KEYS : List String := ["nfrfscenario", "nfrfconnect"]

/-- Display names of config.ALLOWED_PROJECTS, paired with keys. -/
def ALLOWED_PROJECTS : List (String × String) :=
  [("nfrfscenario", "NFRF Scenario"), ("nfrfconnect", "NFRF Connect")]

/-- Feedback type enumeration, config.FEEDBACK_TYPES (config.py line 22). -/
def FEEDBACK_TYPES : List String := ["bug", "feature"]

/-- Status enumeration, config.STATUSES (config.py line 23). -/
def STATUSES : List String := ["pending", "in_progress", "resolved", "closed"]

/-- Severity enumeration, config.SEVERITIES (config.py line 24). -/
def SEVERITIES : List String := ["low", "medium", "high", "critical"]

/-- Default page size, config.PAGE_SIZE_DEFAULT (config.py line 25). -/
def PAGE_SIZE_DEFAULT : Int := 20

/-- Maximum page size, config.PAGE_SIZE_MAX (config.py line 26). -/
def PAGE_SIZE_MAX : Int := 100

/-! ## Placeholder conversion (db.py lines 54-66)

The source walks the SQL string character by character, appending a
positional marker made of a dollar sign and the running index for each
question mark and every other character unchanged. -/

/-- Character-list worker of db._convert_placeholders: the Python loop
with its running index idx (starting at 1). -/
def convertAux : Nat → List Char → List Char
  | _, [] => []
  | i, c :: rest =>
    if c = '?' then ('$' :: (toString i).data) ++ convertAux (i + 1) rest
    else c :: convertAux i rest

/-- Embedding of db._convert_placeholders (db.py lines 54-66). -/
def _convert_placeholders (s : String) : String :=
  String.mk (convertAux 1 s.data)

/-! Specification-side characterization of the conversion, written from the
claim wording: split the input at every question mark, then rejoin the
pieces with the markers numbered 1, 2, ... in order.  Everything outside
the question marks is kept verbatim. -/

/-- Splits a character list at every question mark; the question marks
themselves are dropped, each piece is kept verbatim. -/
def splitQ : List Char → List (List Char)
  | [] => [[]]
  | c :: rest =>
    if c = '?' then [] :: splitQ rest
    else
      match splitQ rest with
      | [] => [[c]]
      | p :: ps => (c :: p) :: ps

/-- Rejoins pieces, inserting the dollar marker numbered i, i+1, ...
between consecutive pieces. -/
def joinNumbered : Nat → List (List Char) → List Char
  | _, [] => []
  | _, [p] => p
  | i, p :: ps => p ++ ('$' :: (toString i).data) ++ joinNumbered (i + 1) ps

/-- splitQ never returns the empty list of pieces. -/
theorem splitQ_ne_nil (cs : List Char) : splitQ cs ≠ [] := by
  induction cs with
  | nil => simp [splitQ]
  | cons c rest ih =>
    by_cases h : c = '?'
    · simp [splitQ, h]
    · simp only [splitQ, h, if_false]
      cases hr : splitQ rest with
      | nil => simp
      | cons p ps => simp

/-- convertAux agrees with the split-then-rejoin description at every
starting index. -/
theorem convertAux_eq_joinNumbered (cs : List Char) (i : Nat) :
    convertAux i cs = joinNumbered i (splitQ cs) := by
  induction cs generalizing i with
  | nil => simp [convertAux, splitQ, joinNumbered]
  | cons c rest ih =>
    by_cases h : c = '?'
    · subst h
      simp only [convertAux, if_pos rfl, splitQ, if_pos rfl]
      cases hr : splitQ rest with
      | nil => exact absurd hr (splitQ_ne_nil rest)
      | cons p ps =>
        simp only [joinNumbered, List.nil_append]
        rw [ih (i + 1), hr]
        simp [joinNumbered]
    · simp only [convertAux, if_neg h, splitQ, if_neg h]
      cases hr : splitQ rest with
      | nil => exact absurd hr (splitQ_ne_nil rest)
      | cons p ps =>
        cases ps with
        | nil =>
          simp only [joinNumbered]
          rw [ih i, hr]
          simp [joinNumbered]
        | cons q qs =>
          simp only [joinNumbered, List.cons_append]
          rw [ih i, hr]
          simp [joinNumbered]

/-- C7: the placeholder conversion applied on the client/server backend
replaces the i-th question mark of the SQL string (counting from 1, left
to right) with the dollar marker numbered i and leaves every other
character unchanged: the output is exactly the input split at its
question marks and rejoined with the markers numbered 1, 2, ... in
order, so the number and order of placeholders in the output equal the
number and order of question-mark markers in the input. -/
theorem convert_placeholders_spec (s : String) :
    _convert_placeholders s = String.mk (joinNumbered 1 (splitQ s.data)) := by
  unfold _convert_placeholders
  rw [convertAux_eq_joinNumbered]

/-! ## Connection adapter (db.py lines 23-51, 82-133)

The adapter materializes every result set eagerly inside execute, so the
DbCursor handed to callers is a plain in-memory structure whose fetchone
and iteration are total.  Backend errors can therefore only surface in
execute itself, which is modelled on an abstract native outcome. -/

/-- The two backends of db.DbConnection. -/
inductive Backend where
  | sqlite
  | postgres
deriving DecidableEq, Repr

/-- SQL values as they travel through the adapter. -/
inductive SqlVal where
  | int (n : Int)
  | text (s : String)
  | bool (b : Bool)
  | null
deriving DecidableEq, Repr

/-- Embedding of db.DbCursor (db.py lines 23-51): column names and the
fully materialized rows.  The constructor coerces a missing column list
to the empty list; fetchone and iteration walk the stored rows. -/
structure DbCursor where
  columns : List String
  rows : List (List SqlVal)
deriving DecidableEq, Repr

/-- Emulation of cursor.fetchone on the in-memory cursor: the next row
or none when exhausted (here: the first row, since the claims only need
one fetch). -/
def DbCursor.fetchone (c : DbCursor) : Option (List SqlVal) :=
  match c.rows with
  | [] => none
  | r :: _ => some r

/-- Outcome of the native apsw execute call plus the getdescription probe
(db.py lines 84-90): a result set with its description, the
ExecutionCompleteError that apsw raises when the statement produced no
result set, or any other backend error. -/
inductive NativeResult where
  | resultSet (cols : List String) (rows : List (List SqlVal))
  | execComplete
  | backendError (msg : String)
deriving DecidableEq, Repr

/-- Embedding of the sqlite branch of DbConnection.execute (db.py lines
83-91): only apsw.ExecutionCompleteError is caught and turned into an
empty cursor; every other exception propagates. -/
def execute_sqlite (n : NativeResult) : Except String DbCursor :=
  match n with
  | .resultSet cols rows => .ok ⟨cols, rows⟩
  | .execComplete => .ok ⟨[], []⟩
  | .backendError m => .error m

/-- Outcome of the native asyncpg call awaited through the private event
loop (db.py lines 102-126): fetched records (column names taken from the
first record), the status tag of a non-select statement with its
trailing affected-row count, or a raised backend error. -/
inductive PgNative where
  | records (cols : List String) (rows : List (List SqlVal))
  | statusTag (count : Nat)
  | pgError (msg : String)
deriving DecidableEq, Repr

/-- Embedding of the postgres branch of DbConnection.execute (db.py
lines 93-128): returns the cursor and the updated _last_rowcount.  When
fetch returns no records the column list is empty (lines 109-110); a
raised error propagates through run_until_complete unchanged. -/
def execute_postgres (n : PgNative) : Except String (DbCursor × Nat) :=
  match n with
  | .records cols rows =>
    if rows = [] then .ok (⟨[], []⟩, 0)
    else .ok (⟨cols, rows⟩, rows.length)
  | .statusTag c => .ok (⟨[], []⟩, c)
  | .pgError m => .error m

/-- Embedding of db.query (db.py lines 342-351).  con.execute is called
outside the try block, so a backend error raised there propagates to the
caller; the try-except only wraps getdescription and iteration over the
in-memory cursor, whose operations are total, so the broad except clause
can only ever observe the absent-description case already mapped to an
empty cursor. -/
def query (e : Except String DbCursor) :
    Except String (List (List (String × SqlVal))) :=
  match e with
  | .error m => .error m
  | .ok c => .ok (c.rows.map (fun r => c.columns.zip r))

/-- Embedding of the generic tail of db.scalar (db.py lines 365-367):
execute, fetch one row, return its first value or none.  Rows produced
by the statements in scope always carry at least one column; a zero
width row yields none here. -/
def scalar (e : Except String DbCursor) : Except String (Option SqlVal) :=
  match e with
  | .error m => .error m
  | .ok c =>
    match c.fetchone with
    | none => .ok none
    | some r => .ok r.head?

/-- Embedding of DbConnection.changes (db.py lines 130-133): the native
sqlite change counter, or the rowcount remembered at execute time for
postgres. -/
def changes (b : Backend) (nativeChanges : Nat) (lastRowcount : Nat) : Nat :=
  match b with
  | .sqlite => nativeChanges
  | .postgres => lastRowcount

/-- C6: every backend error raised during execution propagates through
execute, query and scalar on both backends; the adapter swallows no
exception except the single no-result-set detection
(apsw.ExecutionCompleteError), which becomes an empty cursor, and a
successful result set passes through query unaltered. -/
theorem adapter_error_propagation :
    (∀ m, execute_sqlite (.backendError m) = .error m) ∧
    (∀ m, query (execute_sqlite (.backendError m)) = .error m) ∧
    (∀ m, scalar (execute_sqlite (.backendError m)) = .error m) ∧
    (∀ m, execute_postgres (.pgError m) = .error m) ∧
    (∀ m, query ((execute_postgres (.pgError m)).map Prod.fst) = .error m) ∧
    (∀ m, scalar ((execute_postgres (.pgError m)).map Prod.fst) = .error m) ∧
    (execute_sqlite .execComplete = .ok ⟨[], []⟩) ∧
    (∀ cols rows, query (execute_sqlite (.resultSet cols rows)) =
      .ok (rows.map (fun r => cols.zip r))) :=
  ⟨fun _ => rfl, fun _ => rfl, fun _ => rfl, fun _ => rfl,
   fun _ => rfl, fun _ => rfl, rfl, fun _ _ => rfl⟩

/-! ## Transaction scope (db.py lines 143-157)

Entering the scope issues an explicit BEGIN on sqlite and nothing on
postgres; statements executed inside the scope are buffered by the open
sqlite transaction but autocommitted one by one by postgres (the code
relies on per-statement transactions there); exiting rolls back on an
exception and commits on a clean exit, on sqlite only. -/

/-- Committed statements after running a scope body on a backend:
committed0 is what was committed before the scope, stmts the statements
the body issues in order, and failAfter the exception behaviour (some k
means an exception exits the scope after k statements executed; none
means a clean exit with every statement executed). -/
def scopeCommitted (b : Backend) (stmts : List String) (failAfter : Option Nat)
    (committed0 : List String) : List String :=
  match b with
  | .sqlite =>
    match failAfter with
    | some _ => committed0
    | none => committed0 ++ stmts
  | .postgres =>
    match failAfter with
    | some k => committed0 ++ stmts.take k
    | none => committed0 ++ stmts

/-- The comment insert statement of add_comment (feedback_router.py
lines 129-132). -/
def commentInsertSql : String :=
  "INSERT INTO comments (feedback_id, body, created_by, created_at) VALUES (?,?,?,?);"

/-- C3 is false as stated: on the postgres backend the scope performs no
transaction handling, so a comment insert executed before an exception
exits the scope remains committed — a partial write survives. -/
theorem scope_no_rollback_postgres :
    scopeCommitted Backend.postgres [commentInsertSql] (some 1) [] = [commentInsertSql] ∧
    [commentInsertSql] ≠ ([] : List String) :=
  ⟨rfl, by simp⟩

/-- C3 amended: on the embedded (sqlite) backend the scope rolls back on
any exception, leaving nothing of the body committed, and commits
everything on a clean exit; on the client/server (postgres) backend the
scope performs no transaction handling, so the statements executed
before an exception remain committed one by one. -/
theorem scope_rollback_semantics :
    (∀ stmts k c0, scopeCommitted Backend.sqlite stmts (some k) c0 = c0) ∧
    (∀ stmts c0, scopeCommitted Backend.sqlite stmts none c0 = c0 ++ stmts) ∧
    (∀ stmts k c0, scopeCommitted Backend.postgres stmts (some k) c0 = c0 ++ stmts.take k) ∧
    (∀ stmts c0, scopeCommitted Backend.postgres stmts none c0 = c0 ++ stmts) :=
  ⟨fun _ _ _ => rfl, fun _ _ => rfl, fun _ _ _ => rfl, fun _ _ => rfl⟩

/-! ## Backend selector (db.py lines 160, 200-228) -/

/-- Result of one call to db._connect: the backend of the returned
connection, whether a postgres connection attempt was made during the
call, and the value of the module-global _BACKEND afterwards. -/
structure ConnectResult where
  backend : Backend
  attemptedPg : Bool
  newState : String
deriving DecidableEq, Repr

/-- Embedding of db._connect (db.py lines 200-228) as a function of the
_HAVE_PG flag, the current value of the global _BACKEND (initially the
string postgres, db.py line 160), and whether a postgres connection
attempt would succeed (pgOk = false models _connect_postgres raising). -/
def _connect (havePg : Bool) (backendState : String) (pgOk : Bool) : ConnectResult :=
  if backendState = "sqlite" then ⟨.sqlite, false, backendState⟩
  else if havePg then
    if pgOk then ⟨.postgres, true, "postgres"⟩
    else ⟨.sqlite, true, "sqlite"⟩
  else ⟨.sqlite, false, "sqlite"⟩

/-- A sequence of _connect calls threading the _BACKEND global, one per
connection request, each with its own would-succeed outcome. -/
def connectSeq (havePg : Bool) (backendState : String) : List Bool → List ConnectResult
  | [] => []
  | ok :: rest =>
    let r := _connect havePg backendState ok
    r :: connectSeq havePg r.newState rest

/-- Once _BACKEND holds sqlite, _connect short-circuits: it returns a
sqlite connection, attempts no postgres connection, and leaves the
global unchanged. -/
theorem connect_sqlite_absorbing (havePg pgOk : Bool) :
    _connect havePg "sqlite" pgOk = ⟨.sqlite, false, "sqlite"⟩ := by
  simp [_connect]

/-- C5: if the first client/server connection attempt of the process
(global still at its initial value with asyncpg available) raises, the
selector returns an embedded connection and permanently records sqlite,
and every subsequent connection request, whatever would happen if
postgres were tried, yields an embedded connection without attempting
postgres and leaves the recorded choice unchanged. -/
theorem backend_fallback_permanent (laterOutcomes : List Bool) :
    (_connect true "postgres" false).backend = .sqlite ∧
    (_connect true "postgres" false).attemptedPg = true ∧
    (_connect true "postgres" false).newState = "sqlite" ∧
    connectSeq true "sqlite" laterOutcomes =
      laterOutcomes.map (fun _ => ⟨.sqlite, false, "sqlite"⟩) := by
  refine ⟨by simp [_connect], by simp [_connect], by simp [_connect], ?_⟩
  induction laterOutcomes with
  | nil => rfl
  | cons ok rest ih =>
    simp only [connectSeq, connect_sqlite_absorbing, List.map_cons]
    rw [ih]

/-! ## Data model (db.py init_db DDL, lines 240-339) -/

/-- Row of the projects table.  The stored representation of active
differs per backend: INTEGER on sqlite (DDL line 297), BOOLEAN on
postgres (DDL line 256). -/
structure ProjectRow where
  id : Nat
  key : String
  name : String
  active : SqlVal
deriving DecidableEq, Repr

/-- Row of the feedback table (DDL lines 262-275 and 303-316). -/
structure FeedbackRow where
  id : Nat
  project_key : String
  type : String
  title : String
  description : String
  severity : Option String
  status : String
  created_by : String
  assignee : Option String
  resolution : Option String
  created_at : String
  updated_at : String
deriving DecidableEq, Repr

/-- Row of the comments table (DDL lines 280-287 and 321-328). -/
structure CommentRow where
  id : Nat
  feedback_id : Nat
  body : String
  created_by : String
  created_at : String
deriving DecidableEq, Repr

/-- Logical database state reached through the API: the feedback and
comments tables. -/
structure Db where
  feedback : List FeedbackRow
  comments : List CommentRow
deriving DecidableEq, Repr

/-- Next auto-assigned rowid: one above the largest id in the table
(sqlite INTEGER PRIMARY KEY; the postgres SERIAL sequence agrees on
every state reachable through the API alone). -/
def nextId (ids : List Nat) : Nat := ids.foldr max 0 + 1

/-- Byte-wise comparison of character lists, the BINARY collation both
backends use to order the ASCII strings in scope. -/
def leChars : List Char → List Char → Bool
  | [], _ => true
  | _ :: _, [] => false
  | a :: as, b :: bs => if a = b then leChars as bs else decide (a < b)

/-- Ordering on strings induced by leChars. -/
def strLe (a b : String) : Bool := leChars a.data b.data

/-- Insertion step of a stable insertion sort by a boolean ordering. -/
def insertLe {α : Type} (le : α → α → Bool) (x : α) : List α → List α
  | [] => [x]
  | y :: ys => if le x y then x :: y :: ys else y :: insertLe le x ys

/-- Stable insertion sort by a boolean ordering, modelling ORDER BY. -/
def sortLe {α : Type} (le : α → α → Bool) (l : List α) : List α :=
  l.foldr (insertLe le) []

/-! ## GET /projects on both backends (feedback_router.py lines 17-21)

The handler runs SELECT key,name,active FROM projects WHERE active=1
ORDER BY name on whichever backend was selected.  On sqlite the active
column holds the INTEGER 1 the seeding wrote (db.py line 333) and the
comparison succeeds; on postgres the column is BOOLEAN (DDL line 256),
the seeding wrote TRUE, and comparing a boolean with the integer 1 is a
type error the engine raises (no boolean = integer operator), which the
adapter propagates. -/

/-- The sqlite evaluation of the predicate active=1 under flexible
typing: a numeric comparison of the stored value with 1. -/
def sqliteActiveEqOne (v : SqlVal) : Bool :=
  match v with
  | .int n => n == 1
  | _ => false

/-- The postgres evaluation of the predicate active=1 under strict
typing: comparing the BOOLEAN column with an integer literal has no
operator and raises. -/
def pgActiveEqOne (v : SqlVal) : Except String Bool :=
  match v with
  | .int n => .ok (n == 1)
  | .bool _ => .error "operator does not exist: boolean = integer"
  | .text _ => .error "operator does not exist: text = integer"
  | .null => .ok false

/-- Postgres evaluation of the WHERE clause over the table: the first
type error aborts the whole query. -/
def pgFilterActive : List ProjectRow → Except String (List ProjectRow)
  | [] => .ok []
  | p :: ps =>
    match pgActiveEqOne p.active with
    | .error m => .error m
    | .ok b =>
      match pgFilterActive ps with
      | .error m => .error m
      | .ok rest => .ok (if b then p :: rest else rest)

/-- Python bool() applied to the fetched active value (feedback_router.py
line 21). -/
def pyTruthyVal (v : SqlVal) : Bool :=
  match v with
  | .int n => n != 0
  | .bool b => b
  | .text s => s != ""
  | .null => false

/-- Response rows of GET /projects: key, name, active as a Python bool. -/
def projectOut (rows : List ProjectRow) : List (String × String × Bool) :=
  (sortLe (fun a b => strLe a.name b.name) rows).map
    (fun p => (p.key, p.name, pyTruthyVal p.active))

/-- Embedding of list_projects (feedback_router.py lines 17-21) on a
given backend: filter active=1 under that backend's typing, order by
name, shape the rows. -/
def list_projects (b : Backend) (projects : List ProjectRow) :
    Except String (List (String × String × Bool)) :=
  match b with
  | .sqlite => .ok (projectOut (projects.filter (fun p => sqliteActiveEqOne p.active)))
  | .postgres =>
    match pgFilterActive projects with
    | .error m => .error m
    | .ok rows => .ok (projectOut rows)

/-- State of the projects table after init_db seeding (db.py lines
331-339): the two config.ALLOWED_PROJECTS rows, active written as the
backend-appropriate default (True on postgres, 1 on sqlite). -/
def seededProjects (b : Backend) : List ProjectRow :=
  let activeDefault : SqlVal := match b with | .postgres => .bool true | .sqlite => .int 1
  [⟨1, "nfrfscenario", "NFRF Scenario", activeDefault⟩,
   ⟨2, "nfrfconnect", "NFRF Connect", activeDefault⟩]

/-- C4: responses are not identical across backends on the same logical
state.  On the seeded projects table, GET /projects returns the two
active projects name-ordered on the embedded backend but fails with a
backend type error on the client/server backend, because the query
compares the BOOLEAN active column with the integer 1. -/
theorem list_projects_backend_divergence :
    list_projects Backend.sqlite (seededProjects Backend.sqlite) =
      .ok [("nfrfconnect", "NFRF Connect", true), ("nfrfscenario", "NFRF Scenario", true)] ∧
    list_projects Backend.postgres (seededProjects Backend.postgres) =
      .error "operator does not exist: boolean = integer" ∧
    list_projects Backend.postgres (seededProjects Backend.postgres) ≠
      list_projects Backend.sqlite (seededProjects Backend.sqlite) := by
  refine ⟨by decide, by decide, by decide⟩

/-! ## POST /feedback (feedback_router.py lines 23-44) -/

/-- Embedding of schemas.FeedbackCreate (schemas.py lines 14-21): the
request body as the handler receives it. -/
structure FeedbackCreate where
  project_key : String
  type : String
  title : String
  description : String
  severity : Option String
  assignee : Option String
  created_by : String
deriving DecidableEq, Repr

/-- Client or server error surfaced by a handler: an HTTPException with
its status code and detail, or an uncaught Python exception (which
FastAPI turns into a 500 response). -/
inductive ApiError where
  | http (code : Nat) (msg : String)
  | attributeError (msg : String)
deriving DecidableEq, Repr

/-- Python truthiness of an optional string (None and the empty string
are falsy). -/
def pyTruthyOpt (o : Option String) : Bool :=
  match o with
  | some s => s != ""
  | none => false

/-- Embedding of create_feedback (feedback_router.py lines 23-44):
validate the project key against the static allow-list, the type and the
severity (the severity check is guarded by Python truthiness); then
insert the row — the INSERT statement on line 39 writes the literal
string open into the status column — stamp both timestamps with now,
read the row back by last_insert_rowid and return it. -/
def create_feedback (p : FeedbackCreate) (now : String) (db : Db) :
    Except ApiError (FeedbackRow × Db) :=
  if ¬ ALLOWED_PROJECT_KEYS.contains p.project_key then
    .error (.http 400 "Project is not allowed.")
  else if ¬ FEEDBACK_TYPES.contains p.type then
    .error (.http 400 "Invalid type.")
  else if pyTruthyOpt p.severity ∧ ¬ SEVERITIES.contains (p.severity.getD "") then
    .error (.http 400 "Invalid severity.")
  else
    let fid := nextId (db.feedback.map (fun r => r.id))
    let row : FeedbackRow :=
      ⟨fid, p.project_key, p.type, p.title, p.description, p.severity,
       "open", p.created_by, none, none, now, now⟩
    .ok (row, { db with feedback := db.feedback ++ [row] })

/-- The creation payload of the specification example: project
nfrfscenario, type bug, title X, description Y, created by alice. -/
def examplePayload : FeedbackCreate :=
  ⟨"nfrfscenario", "bug", "X", "Y", none, none, "alice"⟩

/-- C1 fails on the code: for the valid example payload the handler
inserts and returns status open — the literal hard-coded in the INSERT —
not the enumeration default pending; open is not even a member of
config.STATUSES, whose first (default) entry is pending. -/
theorem create_feedback_status_is_open :
    (create_feedback examplePayload "2026-01-01T00:00:00Z" ⟨[], []⟩).toOption.map
        (fun x => x.1.status) = some "open" ∧
    ¬ ("open" ∈ STATUSES) ∧
    STATUSES.head? = some "pending" := by
  refine ⟨by decide, by decide, by decide⟩

/-! ## GET /feedback listing (feedback_router.py lines 46-80) -/

/-- Query parameters of list_feedback with their source defaults (page 1,
page_size config.PAGE_SIZE_DEFAULT, sort the string -created_at). -/
structure ListQuery where
  project_key : Option String
  status : Option String
  ftype : Option String
  search : Option String
  page : Int
  page_size : Int
  sort : String
deriving DecidableEq, Repr

/-- ASCII case folding, as sqlite LIKE applies to ASCII letters. -/
def foldCase (cs : List Char) : List Char := cs.map Char.toLower

/-- Whether a character list starts with another. -/
def startsWithChars : List Char → List Char → Bool
  | _, [] => true
  | [], _ :: _ => false
  | h :: hs, n :: ns => h == n && startsWithChars hs ns

/-- Whether a character list contains another as a contiguous run. -/
def containsChars : List Char → List Char → Bool
  | [], ns => ns.isEmpty
  | h :: t, ns => startsWithChars (h :: t) ns || containsChars t ns

/-- Semantics of column LIKE pattern where the pattern is the search
string wrapped in percent wildcards (feedback_router.py line 67):
substring containment, ASCII-case-folded as sqlite does. -/
def likeSub (needle hay : String) : Bool :=
  containsChars (foldCase hay.data) (foldCase needle.data)

/-- The WHERE clause list_feedback builds (feedback_router.py lines
59-69): one equality clause per truthy filter, and a substring clause
against title OR description for a truthy search. -/
def matchesFilters (q : ListQuery) (r : FeedbackRow) : Bool :=
  (if pyTruthyOpt q.project_key then r.project_key == q.project_key.getD "" else true) &&
  (if pyTruthyOpt q.status then r.status == q.status.getD "" else true) &&
  (if pyTruthyOpt q.ftype then r.type == q.ftype.getD "" else true) &&
  (if pyTruthyOpt q.search then
    likeSub (q.search.getD "") r.title || likeSub (q.search.getD "") r.description
   else true)

/-- The clamp at feedback_router.py lines 56-57: a page_size above
config.PAGE_SIZE_MAX is replaced by the maximum. -/
def clampPageSize (ps : Int) : Int :=
  if ps > PAGE_SIZE_MAX then PAGE_SIZE_MAX else ps

/-- The sort direction at feedback_router.py line 70: descending on
created_at when the sort string starts with a minus, ascending
otherwise. -/
def sortDescFlag (sort : String) : Bool :=
  match sort.data with
  | c :: _ => c == '-'
  | [] => false

/-- ORDER BY created_at in the requested direction. -/
def orderRows (desc : Bool) (rows : List FeedbackRow) : List FeedbackRow :=
  sortLe (fun a b =>
    if desc then strLe b.created_at a.created_at else strLe a.created_at b.created_at) rows

/-- LIMIT page_size OFFSET (page-1)*page_size with sqlite semantics: a
negative offset reads as zero, a negative limit as no limit. -/
def applyWindow (rows : List FeedbackRow) (limit offset : Int) : List FeedbackRow :=
  let dropped := rows.drop offset.toNat
  if limit < 0 then dropped else dropped.take limit.toNat

/-- Response shape of GET /feedback (schemas.FeedbackListOut). -/
structure FeedbackListOut where
  items : List FeedbackRow
  total : Nat
  page : Int
  page_size : Int
deriving DecidableEq, Repr

/-- Embedding of list_feedback (feedback_router.py lines 46-80): clamp
the page size, count all rows matching the filters (the separate
SELECT COUNT(*) with the same WHERE clause, line 73), then fetch the
ordered page window. -/
def list_feedback (q : ListQuery) (db : Db) : FeedbackListOut :=
  let ps := clampPageSize q.page_size
  let matching := db.feedback.filter (matchesFilters q)
  let total := matching.length
  let offset := (q.page - 1) * ps
  let items := applyWindow (orderRows (sortDescFlag q.sort) matching) ps offset
  ⟨items, total, q.page, ps⟩

/-- C9: the maximum page size is 100; for every listing request a
page_size above it is transparently clamped to it (the returned
page_size is the clamped value used for the window); and the returned
total is the count of all rows matching the filters, the same whatever
page and page_size the request carries. -/
theorem list_feedback_clamp_and_total (q : ListQuery) (db : Db) (p2 ps2 : Int) :
    PAGE_SIZE_MAX = 100 ∧
    (list_feedback q db).page_size =
      (if q.page_size > PAGE_SIZE_MAX then PAGE_SIZE_MAX else q.page_size) ∧
    (list_feedback q db).total = (db.feedback.filter (matchesFilters q)).length ∧
    (list_feedback { q with page := p2, page_size := ps2 } db).total =
      (list_feedback q db).total :=
  ⟨rfl, rfl, rfl, rfl⟩

/-! ## PATCH /feedback/{id} (feedback_router.py lines 90-119)

The handler builds one SET assignment per supplied field, validating
status and severity against their enumerations, rejects an empty field
list, then runs the UPDATE inside the transaction scope and calls
changes() on the cursor execute returned.  DbCursor (db.py lines 23-51)
defines no changes method — that attribute lives on DbConnection — so
every request that reaches line 116 raises AttributeError: the scope
exit rolls the update back on sqlite (and leaves it autocommitted on
postgres), and the request fails with a server error. -/

/-- Embedding of schemas.FeedbackUpdate (schemas.py lines 23-30) as the
handler receives it after parsing. -/
structure FeedbackUpdate where
  status : Option String
  assignee : Option String
  resolution : Option String
  title : Option String
  description : Option String
  severity : Option String
  updated_by : String
deriving DecidableEq, Repr

/-- A raw JSON body field: absent from the body, an explicit JSON null,
or a string value. -/
inductive JsonField where
  | absent
  | nullv
  | str (s : String)
deriving DecidableEq, Repr

/-- Pydantic parsing of an optional field declared with default None:
both an absent field and an explicit null parse to None. -/
def parseOpt : JsonField → Option String
  | .absent => none
  | .nullv => none
  | .str s => some s

/-- A raw PATCH body before parsing. -/
structure RawUpdateBody where
  status : JsonField
  assignee : JsonField
  resolution : JsonField
  title : JsonField
  description : JsonField
  severity : JsonField
  updated_by : String
deriving DecidableEq, Repr

/-- Parsing of the raw body into the model the handler sees.  The
enumeration literals of status and severity reject other strings with a
validation error before the handler runs; the handler re-checks both, so
the strings are carried through here. -/
def parseUpdate (r : RawUpdateBody) : FeedbackUpdate :=
  ⟨parseOpt r.status, parseOpt r.assignee, parseOpt r.resolution,
   parseOpt r.title, parseOpt r.description, parseOpt r.severity, r.updated_by⟩

/-- The invalid-status raise at feedback_router.py lines 93-95: the
check is guarded by Python truthiness, so an empty string is skipped. -/
def statusInvalid (p : FeedbackUpdate) : Bool :=
  match p.status with
  | some s => s != "" && !(STATUSES.contains s)
  | none => false

/-- The invalid-severity raise at feedback_router.py lines 105-107: the
guard is an is-not-None test. -/
def severityInvalid (p : FeedbackUpdate) : Bool :=
  match p.severity with
  | some s => !(SEVERITIES.contains s)
  | none => false

/-- The SET assignment pairs the handler accumulates (feedback_router.py
lines 92-108), in source order: status (when truthy), then assignee,
resolution, title, description, severity (each when not None). -/
def updateFieldPairs (p : FeedbackUpdate) : List (String × String) :=
  (match p.status with
   | some s => if s == "" then [] else [("status", s)]
   | none => []) ++
  (match p.assignee with | some s => [("assignee", s)] | none => []) ++
  (match p.resolution with | some s => [("resolution", s)] | none => []) ++
  (match p.title with | some s => [("title", s)] | none => []) ++
  (match p.description with | some s => [("description", s)] | none => []) ++
  (match p.severity with | some s => [("severity", s)] | none => [])

/-- Validation and field collection of update_feedback (feedback_router.py
lines 92-111).  The source raises at the first offending field; the two
possible enumeration raises are hoisted here in their source order
(status before severity), followed by the empty-field raise of lines
110-111. -/
def collectUpdateFields (p : FeedbackUpdate) :
    Except ApiError (List (String × String)) :=
  if statusInvalid p then .error (.http 400 "Invalid status")
  else if severityInvalid p then .error (.http 400 "Invalid severity")
  else if (updateFieldPairs p).isEmpty then .error (.http 400 "Nothing to update")
  else .ok (updateFieldPairs p)

/-- Application of one SET assignment to a row.  The nullable columns
receive some of the supplied string: the parameter list never carries a
null for them, since each pair exists only under the not-None guard. -/
def applyField (r : FeedbackRow) (fv : String × String) : FeedbackRow :=
  match fv.1 with
  | "status" => { r with status := fv.2 }
  | "assignee" => { r with assignee := some fv.2 }
  | "resolution" => { r with resolution := some fv.2 }
  | "title" => { r with title := fv.2 }
  | "description" => { r with description := fv.2 }
  | "severity" => { r with severity := some fv.2 }
  | _ => r

/-- Semantics of the generated UPDATE ... SET f1=?,...,updated_at=?
statement on one row: apply the assignments, then stamp updated_at. -/
def applyAssigns (fields : List (String × String)) (now : String)
    (r : FeedbackRow) : FeedbackRow :=
  { fields.foldl applyField r with updated_at := now }

/-- The UPDATE statement over the table (WHERE id = fid), together with
the affected-row count. -/
def runUpdateStmt (fields : List (String × String)) (now : String) (fid : Nat)
    (db : Db) : Db × Nat :=
  let newFeedback :=
    db.feedback.map (fun r => if r.id == fid then applyAssigns fields now r else r)
  let count := (db.feedback.filter (fun r => r.id == fid)).length
  ({ db with feedback := newFeedback }, count)

/-- Embedding of update_feedback (feedback_router.py lines 90-119).
Validation errors are raised before the connection opens, so the state
is untouched.  Otherwise the UPDATE executes inside the scope, and the
call cur.changes() on line 116 raises AttributeError (DbCursor has no
changes method): on sqlite the scope rolls the update back, on postgres
the autocommitted update stays; either way the request fails with the
uncaught exception before the not-found check can run. -/
def update_feedback (b : Backend) (fid : Nat) (p : FeedbackUpdate) (now : String)
    (db : Db) : (Except ApiError FeedbackRow) × Db :=
  match collectUpdateFields p with
  | .error e => (.error e, db)
  | .ok fields =>
    let pending := runUpdateStmt fields now fid db
    match b with
    | .sqlite => (.error (.attributeError "DbCursor object has no attribute changes"), db)
    | .postgres =>
      (.error (.attributeError "DbCursor object has no attribute changes"), pending.1)

/-- Timestamp the example row was created with. -/
def t0 : String := "2026-01-01T00:00:00Z"

/-- Timestamp of the example update request. -/
def t1 : String := "2026-01-02T00:00:00Z"

/-- The stored row of the specification example, previously pending. -/
def row1 : FeedbackRow :=
  ⟨1, "nfrfscenario", "bug", "X", "Y", none, "pending", "alice", none, none, t0, t0⟩

/-- The PATCH body of the specification example: status resolved. -/
def patchResolved : FeedbackUpdate :=
  ⟨some "resolved", none, none, none, none, none, "alice"⟩

/-- C2 fails on the code: the valid example request (status resolved,
existing id 1) does not succeed on either backend — the handler calls
changes() on the DbCursor that execute returned, an attribute DbCursor
does not define, so the request fails with an uncaught AttributeError;
on sqlite the scope rolls the update back and the row keeps its prior
state, while on postgres the autocommitted update survives the failed
request. -/
theorem update_feedback_attribute_error :
    update_feedback Backend.sqlite 1 patchResolved t1 ⟨[row1], []⟩ =
      (.error (.attributeError "DbCursor object has no attribute changes"),
       ⟨[row1], []⟩) ∧
    update_feedback Backend.postgres 1 patchResolved t1 ⟨[row1], []⟩ =
      (.error (.attributeError "DbCursor object has no attribute changes"),
       ⟨[{ row1 with status := "resolved", updated_at := t1 }], []⟩) :=
  ⟨by decide, by decide⟩

/-- C8: a PATCH body supplying none of the six updatable fields is
rejected with the client error 400 Nothing to update before the
connection is opened, and the database — every stored row with its
updated_at — is left exactly as it was, on either backend. -/
theorem update_empty_body_rejected (b : Backend) (fid : Nat) (now : String)
    (db : Db) (ub : String) :
    update_feedback b fid ⟨none, none, none, none, none, none, ub⟩ now db =
      (.error (.http 400 "Nothing to update"), db) :=
  rfl

/-- Successful field collection always yields exactly the pairs built
from the payload. -/
theorem collectUpdateFields_ok (p : FeedbackUpdate) (fields : List (String × String))
    (h : collectUpdateFields p = .ok fields) : fields = updateFieldPairs p := by
  unfold collectUpdateFields at h
  split_ifs at h
  exact (Except.ok.inj h).symm

/-- C10: an updatable field sent as JSON null parses exactly as an
absent field (pydantic maps both to None), so PATCH treats the two
identically; and the UPDATE the handler builds never assigns null to
assignee, resolution or severity — each of those columns either receives
the supplied string or keeps its prior value, so a non-null optional
field can never be cleared through the API. -/
theorem update_null_equivalence_and_no_clear
    (b : Backend) (fid : Nat) (now : String) (db : Db) (raw : RawUpdateBody)
    (p : FeedbackUpdate) (fields : List (String × String)) (r : FeedbackRow)
    (h : collectUpdateFields p = .ok fields) :
    (update_feedback b fid (parseUpdate { raw with status := JsonField.nullv }) now db =
      update_feedback b fid (parseUpdate { raw with status := JsonField.absent }) now db) ∧
    (update_feedback b fid (parseUpdate { raw with assignee := JsonField.nullv }) now db =
      update_feedback b fid (parseUpdate { raw with assignee := JsonField.absent }) now db) ∧
    (update_feedback b fid (parseUpdate { raw with resolution := JsonField.nullv }) now db =
      update_feedback b fid (parseUpdate { raw with resolution := JsonField.absent }) now db) ∧
    (update_feedback b fid (parseUpdate { raw with title := JsonField.nullv }) now db =
      update_feedback b fid (parseUpdate { raw with title := JsonField.absent }) now db) ∧
    (update_feedback b fid (parseUpdate { raw with description := JsonField.nullv }) now db =
      update_feedback b fid (parseUpdate { raw with description := JsonField.absent }) now db) ∧
    (update_feedback b fid (parseUpdate { raw with severity := JsonField.nullv }) now db =
      update_feedback b fid (parseUpdate { raw with severity := JsonField.absent }) now db) ∧
    ((applyAssigns fields now r).assignee =
      if p.assignee.isSome then p.assignee else r.assignee) ∧
    ((applyAssigns fields now r).resolution =
      if p.resolution.isSome then p.resolution else r.resolution) ∧
    ((applyAssigns fields now r).severity =
      if p.severity.isSome then p.severity else r.severity) := by
  have hf : fields = updateFieldPairs p := collectUpdateFields_ok p fields h
  subst hf
  refine ⟨rfl, rfl, rfl, rfl, rfl, rfl, ?_, ?_, ?_⟩ <;>
    · rcases p with ⟨st, asg, res, tit, des, sev, ub⟩
      cases st <;> cases asg <;> cases res <;> cases tit <;> cases des <;> cases sev <;>
        simp [updateFieldPairs, applyAssigns, applyField] <;>
        split_ifs <;>
        simp [applyField]

/-- A raw PATCH body with every updatable field absent. -/
def rawExample : RawUpdateBody :=
  ⟨.absent, .absent, .absent, .absent, .absent, .absent, "alice"⟩

/-- Witness for the C10 theorem at a concrete input: the hypothesis
holds for the resolved-status payload, and the conclusion follows by
applying the theorem there. -/
theorem update_null_equivalence_witness :
    collectUpdateFields patchResolved = .ok [("status", "resolved")] ∧
    ((update_feedback Backend.sqlite 1
        (parseUpdate { rawExample with status := JsonField.nullv }) t1 ⟨[], []⟩ =
      update_feedback Backend.sqlite 1
        (parseUpdate { rawExample with status := JsonField.absent }) t1 ⟨[], []⟩) ∧
    (update_feedback Backend.sqlite 1
        (parseUpdate { rawExample with assignee := JsonField.nullv }) t1 ⟨[], []⟩ =
      update_feedback Backend.sqlite 1
        (parseUpdate { rawExample with assignee := JsonField.absent }) t1 ⟨[], []⟩) ∧
    (update_feedback Backend.sqlite 1
        (parseUpdate { rawExample with resolution := JsonField.nullv }) t1 ⟨[], []⟩ =
      update_feedback Backend.sqlite 1
        (parseUpdate { rawExample with resolution := JsonField.absent }) t1 ⟨[], []⟩) ∧
    (update_feedback Backend.sqlite 1
        (parseUpdate { rawExample with title := JsonField.nullv }) t1 ⟨[], []⟩ =
      update_feedback Backend.sqlite 1
        (parseUpdate { rawExample with title := JsonField.absent }) t1 ⟨[], []⟩) ∧
    (update_feedback Backend.sqlite 1
        (parseUpdate { rawExample with description := JsonField.nullv }) t1 ⟨[], []⟩ =
      update_feedback Backend.sqlite 1
        (parseUpdate { rawExample with description := JsonField.absent }) t1 ⟨[], []⟩) ∧
    (update_feedback Backend.sqlite 1
        (parseUpdate { rawExample with severity := JsonField.nullv }) t1 ⟨[], []⟩ =
      update_feedback Backend.sqlite 1
        (parseUpdate { rawExample with severity := JsonField.absent }) t1 ⟨[], []⟩) ∧
    ((applyAssigns [("status", "resolved")] t1 row1).assignee =
      if patchResolved.assignee.isSome then patchResolved.assignee else row1.assignee) ∧
    ((applyAssigns [("status", "resolved")] t1 row1).resolution =
      if patchResolved.resolution.isSome then patchResolved.resolution else row1.resolution) ∧
    ((applyAssigns [("status", "resolved")] t1 row1).severity =
      if patchResolved.severity.isSome then patchResolved.severity else row1.severity)) :=
  ⟨by decide,
   update_null_equivalence_and_no_clear Backend.sqlite 1 t1 ⟨[], []⟩ rawExample
     patchResolved [("status", "resolved")] row1 (by decide)⟩

end FeedbackProxy
